import Mathlib

/-!
Verification of the nearest-facility resolver in `src/app.py`.

The Python source is shallowly embedded over the exact reals `ℝ`:
IEEE-754 doubles become real numbers, `math.radians` / `math.sin` /
`math.cos` / `math.sqrt` / `math.atan2` become their exact counterparts,
the stable Timsort behind `list.sort(key=...)` becomes `List.mergeSort`
with the key order (which is stable), and the module-level `distance_lib`
handle (a loaded C library or `None`) becomes an `Option` of a distance
function passed as a parameter.  JSON scalars arriving in the request body
are modelled by `JVal`; HTTP outcomes of the `/api/resources` handler by
`Response`.
-/

namespace ERL

open Real

noncomputable section

/-- `math.atan2 y x`: the angle of the point `(x, y)`, modelled as the
complex argument of `x + y*I` (the exact-real semantics of the C `atan2`). -/
def atan2 (y x : ℝ) : ℝ := Complex.arg ⟨x, y⟩

/-- `math.radians`: degrees to radians. -/
def radians (deg : ℝ) : ℝ := deg * π / 180

/-- `calculate_distance_python` (src/app.py lines 37-55): the portable
Haversine implementation, with the source's intermediate assignments kept
as `let`s.  Note the source computes `a` *without* any clamp to `[0,1]`
before the two square roots. -/
def calculate_distance_python (lat1 lon1 lat2 lon2 : ℝ) : ℝ :=
  let R : ℝ := 6371.0
  let lat1_rad := radians lat1
  let lon1_rad := radians lon1
  let lat2_rad := radians lat2
  let lon2_rad := radians lon2
  let dlat := lat2_rad - lat1_rad
  let dlon := lon2_rad - lon1_rad
  let a := sin (dlat / 2) ^ 2 + cos lat1_rad * cos lat2_rad * sin (dlon / 2) ^ 2
  let c := 2 * atan2 (sqrt a) (sqrt (1 - a))
  let distance := R * c
  distance

/-- `calculate_distance` (src/app.py lines 58-63): dispatch to the loaded
C library when present, else to the Python fallback.  The module-level
`distance_lib` (src/app.py lines 18-27: the `ctypes.CDLL` handle, or `None`
when `distance_calculator.so` is absent) is the `Option` parameter. -/
def calculate_distance (distance_lib : Option (ℝ → ℝ → ℝ → ℝ → ℝ))
    (lat1 lon1 lat2 lon2 : ℝ) : ℝ :=
  match distance_lib with
  | some lib => lib lat1 lon1 lat2 lon2
  | none => calculate_distance_python lat1 lon1 lat2 lon2

/-- Modelled from the spec: the §4.1 GeoDistance algorithm exactly as the
spec words it (steps 1-5, sphere radius R = 6371.0 km,
`h = sin²(dlat/2) + cos(lat1)·cos(lat2)·sin²(dlon/2)`,
`c = 2·atan2(√h, √(1−h))`, result `R·c`), for comparison with the source
function `calculate_distance_python`. -/
def haversineSpec (lat1 lon1 lat2 lon2 : ℝ) : ℝ :=
  let R : ℝ := 6371.0
  let l1 := radians lat1
  let g1 := radians lon1
  let l2 := radians lat2
  let g2 := radians lon2
  let dlat := l2 - l1
  let dlon := g2 - g1
  let h := sin (dlat / 2) ^ 2 + cos l1 * cos l2 * sin (dlon / 2) ^ 2
  let c := 2 * atan2 (sqrt h) (sqrt (1 - h))
  R * c

/-- A resource row from the `resources` table (src/app.py lines 80-102):
the fields the handler reads.  The SQL column `type` is spelled `rtype`
(`type` is a Lean keyword). -/
structure Resource where
  id : Nat
  name : String
  rtype : String
  address : String
  phone : String
  latitude : ℝ
  longitude : ℝ

/-- One entry of `resources_with_distance` (src/app.py lines 93-102): the
resource's fields copied verbatim, plus the computed `distance`. -/
structure RankedResource where
  id : Nat
  name : String
  rtype : String
  address : String
  phone : String
  latitude : ℝ
  longitude : ℝ
  distance : ℝ

/-- Building one element of `resources_with_distance`
(src/app.py lines 88-102). -/
def annotate (distance_lib : Option (ℝ → ℝ → ℝ → ℝ → ℝ))
    (user_lat user_lon : ℝ) (r : Resource) : RankedResource :=
  { id := r.id, name := r.name, rtype := r.rtype, address := r.address,
    phone := r.phone, latitude := r.latitude, longitude := r.longitude,
    distance := calculate_distance distance_lib user_lat user_lon
      r.latitude r.longitude }

/-- The key order used by `resources_with_distance.sort(key=lambda x:
x['distance'])`. -/
def distance_le (a b : RankedResource) : Bool := decide (a.distance ≤ b.distance)

/-- The ranking core of `get_resources` (src/app.py lines 86-113): compute
a distance for every resource in input order, sort stably by distance
(Python's Timsort is stable; modelled by `List.mergeSort`), return the
first 10. -/
def rank (distance_lib : Option (ℝ → ℝ → ℝ → ℝ → ℝ))
    (user_lat user_lon : ℝ) (resources : List Resource) : List RankedResource :=
  (((resources.map (annotate distance_lib user_lat user_lon)).mergeSort
    distance_le).take 10)

/-- A JSON scalar as returned by `data.get('latitude')` when the key is
present and non-null.  The handler only ever distinguishes numbers (which
the distance routines accept) from non-numeric values such as strings (on
which both `math.radians` and the `ctypes` argument conversion raise a
`TypeError`); a missing key or JSON `null` is the surrounding `Option.none`. -/
inductive JVal where
  | num (x : ℝ)
  | str (s : String)

/-- Whether the scalar is numeric (accepted by the distance routines). -/
def JVal.isNum : JVal → Bool
  | .num _ => true
  | .str _ => false

/-- Outcome of the `/api/resources` handler: the 200 payload (echoed
requester location plus ranked resources), the 400 `{'error': ...}`
response, or the catch-all 500 response from the `except` block. -/
inductive Response where
  | ok (user_lat user_lon : JVal) (resources : List RankedResource)
  | clientError (msg : String)
  | serverError

/-- `get_resources` (src/app.py lines 66-117).  Missing latitude or
longitude (`None`) is answered with the 400 error before anything else
runs.  A present but non-numeric value passes the `is None` check; the
first `calculate_distance` call in the loop then raises `TypeError`, which
the `except` block turns into a 500 — unless the resource list is empty,
in which case the loop body never runs and the request succeeds, echoing
the non-numeric value. -/
def get_resources (distance_lib : Option (ℝ → ℝ → ℝ → ℝ → ℝ))
    (latOpt lonOpt : Option JVal) (resources : List Resource) : Response :=
  match latOpt, lonOpt with
  | none, _ => .clientError "Invalid location data"
  | some _, none => .clientError "Invalid location data"
  | some (JVal.num la), some (JVal.num lo) =>
      .ok (JVal.num la) (JVal.num lo) (rank distance_lib la lo resources)
  | some la, some lo =>
      if resources.isEmpty then .ok la lo [] else .serverError

/-- The `/api/health` payload (src/app.py lines 120-126). -/
structure HealthResponse where
  status : String
  c_library_loaded : Bool

/-- `health_check` (src/app.py lines 120-126). -/
def health_check (distance_lib : Option (ℝ → ℝ → ℝ → ℝ → ℝ)) : HealthResponse :=
  { status := "healthy", c_library_loaded := distance_lib.isSome }

/-- Dropping the distance annotation recovers a `Resource`. -/
def strip (r : RankedResource) : Resource :=
  { id := r.id, name := r.name, rtype := r.rtype, address := r.address,
    phone := r.phone, latitude := r.latitude, longitude := r.longitude }

/-- A concrete resource row used in closed counterexamples and witnesses. -/
def sampleResource : Resource :=
  { id := 1, name := "General Hospital", rtype := "hospital",
    address := "1 Main St", phone := "555-0100", latitude := 10,
    longitude := 20 }

end

/-- Claim C1: `calculate_distance_python` computes exactly the Haversine
great-circle distance of §4.1 of the spec — degree-to-radian conversion of
both coordinates, `h = sin²(dlat/2) + cos(lat1)·cos(lat2)·sin²(dlon/2)`,
`c = 2·atan2(√h, √(1−h))`, and result `R·c` with `R = 6371.0` km. -/
theorem calculate_distance_python_eq_spec (lat1 lon1 lat2 lon2 : ℝ) :
    calculate_distance_python lat1 lon1 lat2 lon2 =
      haversineSpec lat1 lon1 lat2 lon2 := rfl

/-- Claim C7: the portable distance function is symmetric — swapping the
two coordinates leaves the result unchanged (exactly, in the real
semantics, hence in particular within the spec's 1e-9 km tolerance). -/
theorem calculate_distance_python_symm (lat1 lon1 lat2 lon2 : ℝ) :
    calculate_distance_python lat1 lon1 lat2 lon2 =
      calculate_distance_python lat2 lon2 lat1 lon1 := by
  have key : ∀ x y : ℝ, sin ((x - y) / 2) ^ 2 = sin ((y - x) / 2) ^ 2 := by
    intro x y
    rw [show (x - y) / 2 = -((y - x) / 2) by ring, Real.sin_neg]
    ring
  simp only [calculate_distance_python]
  rw [key (radians lat2) (radians lat1), key (radians lon2) (radians lon1),
    mul_comm (cos (radians lat1)) (cos (radians lat2))]

/-- Claim C8: the distance of a point to itself is exactly zero. -/
theorem calculate_distance_python_self (lat lon : ℝ) :
    calculate_distance_python lat lon lat lon = 0 := by
  have harg : atan2 0 1 = 0 := by
    show Complex.arg ⟨1, 0⟩ = 0
    exact Complex.arg_one
  simp only [calculate_distance_python, sub_self, zero_div, Real.sin_zero,
    ne_eq, OfNat.ofNat_ne_zero, not_false_eq_true, zero_pow, mul_zero,
    add_zero, Real.sqrt_zero, sub_zero, Real.sqrt_one, harg, mul_zero]

/-- The sort key order is transitive. -/
theorem distance_le_trans :
    ∀ a b c : RankedResource, distance_le a b → distance_le b c → distance_le a c := by
  intro a b c hab hbc
  simp only [distance_le, decide_eq_true_eq] at *
  exact le_trans hab hbc

/-- The sort key order is total. -/
theorem distance_le_total :
    ∀ a b : RankedResource, distance_le a b || distance_le b a := by
  intro a b
  simp only [distance_le, Bool.or_eq_true, decide_eq_true_eq]
  exact le_total a.distance b.distance

/-- Stability of the sort, filter form: the entries carrying any one fixed
distance value come out of the sort exactly in their input order. -/
theorem mergeSort_filter_dist (d : ℝ) (l : List RankedResource) :
    (l.mergeSort distance_le).filter (fun x => decide (x.distance = d)) =
      l.filter (fun x => decide (x.distance = d)) := by
  set q : RankedResource → Bool := fun x => decide (x.distance = d) with hq
  have hmem : ∀ x ∈ l.filter q, x.distance = d := by
    intro x hx
    have := (List.mem_filter.mp hx).2
    simpa [hq] using this
  have hpair : (l.filter q).Pairwise (fun a b => distance_le a b) := by
    apply List.pairwise_of_forall_mem_list
    intro a ha b hb
    simp only [distance_le, decide_eq_true_eq]
    rw [hmem a ha, hmem b hb]
  have h1 : (l.filter q).Sublist (l.mergeSort distance_le) :=
    List.sublist_mergeSort distance_le_trans distance_le_total hpair
      (List.filter_sublist l)
  have h2 : (l.filter q).filter q = l.filter q :=
    List.filter_eq_self.mpr (fun x hx => (List.mem_filter.mp hx).2)
  have h3 : (l.filter q).Sublist ((l.mergeSort distance_le).filter q) := by
    have := h1.filter q
    rwa [h2] at this
  have h4 : ((l.mergeSort distance_le).filter q).length = (l.filter q).length :=
    ((List.mergeSort_perm l distance_le).filter q).length_eq
  exact (h3.eq_of_length h4.symm).symm

/-- Claim C2: the ranked output is sorted non-decreasing by distance, and
the sort is stable — for every distance value `d`, the output entries with
distance `d` form a subsequence (hence the same relative order) of the
input entries with distance `d`. -/
theorem rank_sorted_and_stable (distance_lib : Option (ℝ → ℝ → ℝ → ℝ → ℝ))
    (la lo : ℝ) (rs : List Resource) :
    List.Pairwise (fun a b : RankedResource => a.distance ≤ b.distance)
      (rank distance_lib la lo rs) ∧
    ∀ d : ℝ,
      ((rank distance_lib la lo rs).filter
          (fun x => decide (x.distance = d))).Sublist
        ((rs.map (annotate distance_lib la lo)).filter
          (fun x => decide (x.distance = d))) := by
  constructor
  · have hs : ((rs.map (annotate distance_lib la lo)).mergeSort
        distance_le).Pairwise (fun a b => distance_le a b) :=
      List.sorted_mergeSort distance_le_trans distance_le_total _
    have ht : (rank distance_lib la lo rs).Pairwise
        (fun a b => distance_le a b) :=
      hs.sublist (List.take_sublist _ _)
    exact ht.imp (fun h => by simpa [distance_le, decide_eq_true_eq] using h)
  · intro d
    have h1 : ((rank distance_lib la lo rs).filter
        (fun x => decide (x.distance = d))).Sublist
        (((rs.map (annotate distance_lib la lo)).mergeSort
          distance_le).filter (fun x => decide (x.distance = d))) :=
      (List.take_sublist _ _).filter _
    rwa [mergeSort_filter_dist] at h1

/-- Claim C3: the ranked result has length `min 10 n` for `n` input
candidates, and on the empty candidate list it is the empty list. -/
theorem rank_length_min (distance_lib : Option (ℝ → ℝ → ℝ → ℝ → ℝ))
    (la lo : ℝ) (rs : List Resource) :
    (rank distance_lib la lo rs).length = min 10 rs.length ∧
      rank distance_lib la lo [] = [] := by
  constructor
  · simp [rank]
  · simp [rank]

/-- Counterexample to claim C5 as stated: with a non-numeric latitude
(`"abc"`) and one candidate present, the handler does NOT report a client
error before invoking the engine — the engine is invoked, raises, and the
request ends in the generic 500 server error. -/
theorem get_resources_nonnumeric_is_500 :
    get_resources none (some (JVal.str "abc")) (some (JVal.num 0))
      [sampleResource] = Response.serverError := rfl

/-- Claim C5 as amended: a missing (null/absent) latitude or longitude is
detected and answered with the 400 client error before the engine runs;
but a present non-numeric value is not detected by the handler — with at
least one candidate it reaches the engine, whose `TypeError` surfaces as
the generic 500 server error; only when both values are numeric does the
handler return the ranked payload. -/
theorem get_resources_validation (distance_lib : Option (ℝ → ℝ → ℝ → ℝ → ℝ))
    (latOpt lonOpt : Option JVal) (rs : List Resource) :
    ((latOpt = none ∨ lonOpt = none) →
      get_resources distance_lib latOpt lonOpt rs =
        Response.clientError "Invalid location data") ∧
    (∀ la lo : JVal, latOpt = some la → lonOpt = some lo →
      (la.isNum = false ∨ lo.isNum = false) → rs ≠ [] →
      get_resources distance_lib latOpt lonOpt rs = Response.serverError) ∧
    (∀ la lo : ℝ, latOpt = some (JVal.num la) → lonOpt = some (JVal.num lo) →
      get_resources distance_lib latOpt lonOpt rs =
        Response.ok (JVal.num la) (JVal.num lo) (rank distance_lib la lo rs)) := by
  refine ⟨?_, ?_, ?_⟩
  · rintro (rfl | rfl)
    · rfl
    · cases latOpt with
      | none => rfl
      | some v => cases v <;> rfl
  · rintro la lo rfl rfl hnn hne
    have hemp : rs.isEmpty = false := by
      cases rs
      · exact absurd rfl hne
      · rfl
    cases la with
    | str s => cases lo <;> simp [get_resources, hemp]
    | num x =>
        cases lo with
        | str s => simp [get_resources, hemp]
        | num y => simp [JVal.isNum] at hnn
  · rintro la lo rfl rfl
    rfl

/-- Witness for the amended C5 theorem at concrete inputs. -/
theorem get_resources_validation_wit :
    get_resources none none (some (JVal.num 0)) [] =
      Response.clientError "Invalid location data" :=
  (get_resources_validation none none (some (JVal.num 0)) []).1 (Or.inl rfl)

/-- Claim C6: with the C library absent (`distance_lib = none`), every
distance computation is the portable Python implementation, a well-formed
request still succeeds (no request-time error), and the condition is
visible in the health probe as `c_library_loaded = false`. -/
theorem backend_fallback (lat1 lon1 lat2 lon2 la lo : ℝ) (rs : List Resource) :
    calculate_distance none lat1 lon1 lat2 lon2 =
      calculate_distance_python lat1 lon1 lat2 lon2 ∧
    get_resources none (some (JVal.num la)) (some (JVal.num lo)) rs =
      Response.ok (JVal.num la) (JVal.num lo) (rank none la lo rs) ∧
    health_check none = { status := "healthy", c_library_loaded := false } ∧
    ∀ lib : ℝ → ℝ → ℝ → ℝ → ℝ,
      health_check (some lib) = { status := "healthy", c_library_loaded := true } :=
  ⟨rfl, rfl, rfl, fun _ => rfl⟩

/-- Claim C9: on a successful request the response echoes the requester's
location unchanged, its resource list is exactly the ranked list, and every
ranked entry is one of the input candidates with all its fields unchanged,
annotated with exactly the computed distance. -/
theorem get_resources_frame (distance_lib : Option (ℝ → ℝ → ℝ → ℝ → ℝ))
    (la lo : ℝ) (rs : List Resource) :
    get_resources distance_lib (some (JVal.num la)) (some (JVal.num lo)) rs =
      Response.ok (JVal.num la) (JVal.num lo) (rank distance_lib la lo rs) ∧
    ∀ r ∈ rank distance_lib la lo rs, ∃ f ∈ rs, strip r = f ∧
      r.distance = calculate_distance distance_lib la lo f.latitude f.longitude := by
  refine ⟨rfl, ?_⟩
  intro r hr
  have h1 : r ∈ (rs.map (annotate distance_lib la lo)).mergeSort distance_le :=
    List.take_subset _ _ hr
  have h2 : r ∈ rs.map (annotate distance_lib la lo) :=
    List.mem_mergeSort.mp h1
  obtain ⟨f, hf, rfl⟩ := List.mem_map.mp h2
  exact ⟨f, hf, rfl, rfl⟩

/-- Witness for the C9 theorem: with the single sample resource, the ranked
list is the annotated sample itself, and the frame property holds of it. -/
theorem get_resources_frame_wit :
    ∃ f ∈ [sampleResource], strip (annotate none 0 0 sampleResource) = f ∧
      (annotate none 0 0 sampleResource).distance =
        calculate_distance none 0 0 f.latitude f.longitude :=
  (get_resources_frame none 0 0 [sampleResource]).2
    (annotate none 0 0 sampleResource) (by simp [rank])

/-- Claim C10: the handler is deterministic — for a fixed backend, equal
requests over equal candidate lists produce identical responses (same
entries, same order, same distances). -/
theorem get_resources_deterministic
    (lib1 lib2 : Option (ℝ → ℝ → ℝ → ℝ → ℝ)) (lat1 lon1 lat2 lon2 : Option JVal)
    (rs1 rs2 : List Resource) (hb : lib1 = lib2) (hlat : lat1 = lat2)
    (hlon : lon1 = lon2) (hrs : rs1 = rs2) :
    get_resources lib1 lat1 lon1 rs1 = get_resources lib2 lat2 lon2 rs2 := by
  rw [hb, hlat, hlon, hrs]

/-- Witness for the C10 theorem at concrete inputs. -/
theorem get_resources_deterministic_wit :
    get_resources none (some (JVal.num 0)) (some (JVal.num 0)) [] =
      get_resources none (some (JVal.num 0)) (some (JVal.num 0)) [] :=
  get_resources_deterministic none none (some (JVal.num 0)) (some (JVal.num 0))
    (some (JVal.num 0)) (some (JVal.num 0)) [] [] rfl rfl rfl rfl

end ERL
